import Mathlib

/-!
Shallow embedding of src/MathML_EPS.py.

The script extracts MathML spans from an XML document, drives the external
MathType application through a UI-automation channel to render each span,
and writes a numbered sequence of EPS artifacts (real EqnN.eps files on
success, empty EqnN_failed.eps placeholders on failure).

Documents, window titles and file names are modelled as List Char.  The
UI-automation environment is modelled by explicit data: window snapshots for
the polling loop of get_main_window, a per-window dismissal outcome for
dismiss_error_popup, and a per-unit behaviour value saying at which statement
of the per-unit pipeline (if any) the control channel raises an exception.
-/

namespace MathMLEps

/-! ### Character-list utilities -/

/-- True when the second list starts with the first (pattern) list. -/
def leadsWith : List Char → List Char → Bool
  | [], _ => true
  | _ :: _, [] => false
  | p :: ps, c :: cs => p == c && leadsWith ps cs

/-- True when the pattern occurs as a contiguous sublist of the first list. -/
def containsSub : List Char → List Char → Bool
  | [], pat => pat.isEmpty
  | c :: rest, pat => leadsWith pat (c :: rest) || containsSub rest pat

/-- Split at the first occurrence of the pattern: returns the (shortest)
segment before the occurrence and the remainder after it.  This is the
semantics of a non-greedy group followed by a literal in a Python regex. -/
def splitAtFirst (pat : List Char) : List Char → Option (List Char × List Char)
  | [] => if pat.isEmpty then some ([], []) else none
  | c :: rest =>
    if leadsWith pat (c :: rest) then some ([], (c :: rest).drop pat.length)
    else
      match splitAtFirst pat rest with
      | some (pre, post) => some (c :: pre, post)
      | none => none

/-! ### Extractor (extract_mathml_blocks, src lines 28-33)

The Python regex, with DOTALL, matched by re.findall is
a literal open tag, a greedy run of non-gt characters, the literal
altimg attribute opener, a nonempty greedy group of non-quote characters,
a closing quote, a greedy run of non-gt characters, a gt sign, a non-greedy
body group, and the literal closing tag.  Greedy and non-greedy pieces are
resolved below exactly as the Python engine resolves them:
the run of non-quote characters stops at the first quote, the run of non-gt
characters before the gt sign stops at the first gt sign, the body stops at
the first closing tag, and the leading greedy run of non-gt characters
backtracks from its longest extent. -/

def mathOpenLit : List Char := "<math".data

def altimgLit : List Char := "altimg=\"".data

def mathCloseLit : List Char := "</math>".data

def rebuildOpenLit : List Char := "<math altimg=\"".data

/-- Match the tail of the pattern starting right after the altimg opener:
a nonempty run of non-quote characters (the altimg value), a quote, a run of
non-gt characters, a gt sign, then the shortest body up to the closing tag.
Returns (altimg value, body, remainder of the document). -/
def matchFromAlt (s : List Char) : Option (List Char × List Char × List Char) :=
  let alt := s.takeWhile (fun c => c != '"')
  if alt.isEmpty then none
  else
    match s.drop alt.length with
    | '"' :: s2 =>
      match s2.drop (s2.takeWhile (fun c => c != '>')).length with
      | '>' :: s4 =>
        match splitAtFirst mathCloseLit s4 with
        | some (body, rest) => some (alt, body, rest)
        | none => none
      | _ => none
    | _ => none

/-- Backtracking for the leading greedy run of non-gt characters: try the
altimg opener at offset k, k-1, ..., 0 into the text following the open tag
(largest offset first, as the greedy engine does). -/
def tryAltFrom (t : List Char) : Nat → Option (List Char × List Char × List Char)
  | 0 => if leadsWith altimgLit t then matchFromAlt (t.drop altimgLit.length) else none
  | k + 1 =>
    match (if leadsWith altimgLit (t.drop (k + 1)) then
            matchFromAlt (t.drop (k + 1 + altimgLit.length)) else none) with
    | some r => some r
    | none => tryAltFrom t k

/-- Attempt a match of the whole pattern at the start of s. -/
def matchMathAt (s : List Char) : Option (List Char × List Char × List Char) :=
  if leadsWith mathOpenLit s then
    let t := s.drop mathOpenLit.length
    tryAltFrom t (t.takeWhile (fun c => c != '>')).length
  else none

/-- re.findall scanning: try a match at each position left to right; on a
match record its groups and continue after it.  Fuel bounds the recursion;
every step consumes at least one character, so fuel equal to the document
length never runs out. -/
def findAllFuel : Nat → List Char → List (List Char × List Char)
  | 0, _ => []
  | _ + 1, [] => []
  | fuel + 1, c :: rest =>
    match matchMathAt (c :: rest) with
    | some (alt, body, rem) => (alt, body) :: findAllFuel fuel rem
    | none => findAllFuel fuel rest

/-- The f-string rebuild of one block from its captured groups
(src line 32): open tag with only the altimg attribute, the body, close tag. -/
def rebuildBlock (alt content : List Char) : List Char :=
  rebuildOpenLit ++ alt ++ ('"' :: '>' :: content) ++ mathCloseLit

/-- extract_mathml_blocks (src lines 28-33), on the document text (the file
read is elided): the list of (rebuilt block, altimg value) pairs in document
order. -/
def extract_mathml_blocks (doc : List Char) : List (List Char × List Char) :=
  (findAllFuel doc.length doc).map (fun m => (rebuildBlock m.fst m.snd, m.fst))

/-! ### Preference-map loader (read_eps_preferences, src lines 41-55) -/

/-- The character class removed by the Python str.strip default:
space, tab, newline, carriage return, vertical tab, form feed. -/
def isPySpace (c : Char) : Bool :=
  c == ' ' || c == '\t' || c == '\n' || c == '\r' ||
  c == Char.ofNat 11 || c == Char.ofNat 12

/-- str.strip with default arguments. -/
def stripPy (l : List Char) : List Char :=
  ((l.dropWhile isPySpace).reverse.dropWhile isPySpace).reverse

/-- str.split on a tab: the empty string yields one empty field. -/
def splitTab : List Char → List (List Char)
  | [] => [[]]
  | c :: rest =>
    if c == '\t' then [] :: splitTab rest
    else
      match splitTab rest with
      | [] => [[c]]
      | p :: ps => (c :: p) :: ps

/-- The mapping built by the loader, with Python dict semantics: an insert
with an existing key replaces that key's value in place. -/
abbrev PrefMap := List (List Char × List Char)

def insertPref : PrefMap → List Char → List Char → PrefMap
  | [], k, v => [(k, v)]
  | (k0, v0) :: rest, k, v =>
    if k0 == k then (k0, v) :: rest else (k0, v0) :: insertPref rest k v

def lookupPref : PrefMap → List Char → Option (List Char)
  | [], _ => none
  | (k0, v0) :: rest, k => if k0 == k then some v0 else lookupPref rest k

/-- One line of the report (src lines 49-54): strip, split on tabs, and when
at least two fields are present record stripped field two under stripped
field one; otherwise leave the mapping unchanged. -/
def processLine (m : PrefMap) (line : List Char) : PrefMap :=
  match splitTab (stripPy line) with
  | p0 :: p1 :: _ => insertPref m (stripPy p0) (stripPy p1)
  | _ => m

/-- read_eps_preferences (src lines 41-55) on the report file content:
none models a missing or unreadable file.  The Bool records whether the
non-fatal missing-file warning was logged. -/
def read_eps_preferences : Option (List (List Char)) → PrefMap × Bool
  | none => ([], true)
  | some lines => (lines.foldl processLine [], false)

/-- A report line contributes an entry exactly when its stripped text splits
into at least two tab-delimited fields. -/
def hasTwoFields (line : List Char) : Bool :=
  match splitTab (stripPy line) with
  | _ :: _ :: _ => true
  | _ => false

/-! ### Window discovery (get_main_window, src lines 67-75) -/

structure AppWindow where
  title : List Char
  className : List Char
deriving DecidableEq

def mathTypeLit : List Char := "MathType".data

def eqnWinClassLit : List Char := "EQNWINCLASS".data

/-- The test at src line 72: the title contains MathType and the window class
is EQNWINCLASS. -/
def isMainWindow (w : AppWindow) : Bool :=
  containsSub w.title mathTypeLit && w.className == eqnWinClassLit

def findMain (ws : List AppWindow) : Option AppWindow := ws.find? isMainWindow

/-- get_main_window: poll the window list until a main window appears or the
bounded timeout elapses; each element of snaps is one poll's snapshot (the
finite list models the bounded timeout).  Returns none on timeout rather
than raising. -/
def getMainWindow : List (List AppWindow) → Option AppWindow
  | [] => none
  | ws :: later =>
    match findMain ws with
    | some w => some w
    | none => getMainWindow later

/-! ### Failure recovery (dismiss_error_popup, src lines 157-188) -/

def popupKeywords : List (List Char) :=
  ["error".data, "math".data, "warning".data, "confirm".data,
   "save".data, "server".data]

def lowerChars (l : List Char) : List Char := l.map Char.toLower

/-- The keyword test at src line 164 on the lowercased window title. -/
def titleMatchesKeyword (title : List Char) : Bool :=
  popupKeywords.any (fun k => containsSub (lowerChars title) k)

/-- A top-level window as dismiss_error_popup sees it: its title and whether
the focus-then-escape attempt on it succeeds (a failing attempt raises inside
the inner try and the loop continues). -/
structure PopupWindow where
  title : List Char
  dismissSucceeds : Bool
deriving DecidableEq

/-- dismiss_error_popup: walk the enumerated windows in order; on a window
whose title matches a keyword, attempt focus-and-escape; return true on the
first successful dismissal; when the attempt fails, continue with the
remaining windows; return false after the loop. -/
def dismiss_error_popup : List PopupWindow → Bool
  | [] => false
  | w :: ws =>
    if titleMatchesKeyword w.title then
      if w.dismissSucceeds then true else dismiss_error_popup ws
    else dismiss_error_popup ws

/-! ### Sequencer and artifacts -/

/-- One output artifact: its numeric index and whether it is the empty
placeholder (EqnN_failed.eps) rather than a real render (EqnN.eps). -/
structure Artifact where
  index : Nat
  failed : Bool
deriving DecidableEq

/-- The f-string at src line 123 and 214. -/
def epsNameChars (n : Nat) : List Char := "Eqn".data ++ (Nat.repr n).data ++ ".eps".data

/-- The artifact's file name: src line 123 for a real render, src line 236
for the placeholder. -/
def artifactName (a : Artifact) : List Char :=
  if a.failed then "Eqn".data ++ (Nat.repr a.index).data ++ "_failed.eps".data
  else epsNameChars a.index

/-! ### Orchestrator (process_mathml_blocks_from_file, src lines 194-245)

The control channel is unreliable: any pywinauto or pyperclip statement of
the per-unit pipeline may raise.  UnitBehavior records, for one unit, at
which statement the environment makes the pipeline raise first (or that a
swallowed failure, or no failure, occurs). -/

inductive UnitBehavior where
  /-- every statement of the unit pipeline succeeds -/
  | ok
  /-- pyperclip.copy raises (src line 211) -/
  | copyFail
  /-- send_keys in paste_mathml_to_mathtype raises (src lines 77-81) -/
  | pasteFail
  /-- apply_preferences: get_main_window returns none; logged, the function
  returns and the unit continues (src lines 84-87) -/
  | prefWinNotFound
  /-- apply_preferences: set_focus or the select-all send_keys raises and
  escapes apply_preferences (src lines 89-90) -/
  | prefFocusFail
  /-- apply_preferences: menu_select raises; caught inside apply_preferences
  and logged, the unit continues (src lines 93-108) -/
  | prefMenuFail
  /-- save_as_eps: main window not found, RuntimeError (src lines 113-115) -/
  | saveWinNotFound
  /-- save_as_eps: the Save As menu_select raises (src line 117) -/
  | saveMenuFail
  /-- save_as_eps: the save dialog never becomes visible within the timeout
  and wait raises (src lines 120-121), before the counter increment -/
  | saveDialogTimeout
  /-- save_as_eps: set_edit_text raises (src line 127), after the counter
  increment at src line 125 -/
  | saveEditFail
  /-- save_as_eps: the Save button click raises (src line 129), after the
  counter increment at src line 125 -/
  | saveClickFail
  /-- close_current_window: send_keys raises; caught inside
  close_current_window and logged (src lines 142-151) -/
  | closeFail
deriving DecidableEq

/-- The exception value reaching the per-unit handler. -/
inductive PyExn where
  | clipboardError
  | uiActionError
  | runtimeNoMainWindow
  | timeoutError
deriving DecidableEq

/-- pyperclip.copy plus paste_mathml_to_mathtype (src lines 211-212). -/
def pasteStep : UnitBehavior → Except PyExn Unit
  | .copyFail => .error .clipboardError
  | .pasteFail => .error .uiActionError
  | _ => .ok ()

/-- apply_preferences (src lines 83-108): only a set_focus or select-all
failure escapes; a missing window and a menu_select failure are handled
inside the function. -/
def applyPreferencesStep : UnitBehavior → Except PyExn Unit
  | .prefFocusFail => .error .uiActionError
  | _ => .ok ()

/-- save_as_eps (src lines 110-140), with the counter threaded explicitly.
The increment at src line 125 sits after the save-dialog visibility wait and
before set_edit_text and the Save click, so a failure in those two
statements raises with the counter already advanced; an error carries the
counter value at raise time. -/
def saveAsEpsStep : UnitBehavior → Nat → Except (PyExn × Nat) (Artifact × Nat)
  | .saveWinNotFound, n => .error (.runtimeNoMainWindow, n)
  | .saveMenuFail, n => .error (.uiActionError, n)
  | .saveDialogTimeout, n => .error (.timeoutError, n)
  | .saveEditFail, n => .error (.uiActionError, n + 1)
  | .saveClickFail, n => .error (.uiActionError, n + 1)
  | _, n => .ok (⟨n, false⟩, n + 1)

/-- close_current_window (src lines 142-151) wraps its whole body in a
try-except, so it never raises. -/
def closeStep (_ : UnitBehavior) : Except PyExn Unit := .ok ()

/-- Whether a preference is mapped for the prospective file name of the
current counter value (src lines 214-215). -/
def prefAvailable (pm : PrefMap) (n : Nat) : Bool :=
  (lookupPref pm (epsNameChars n)).isSome

/-- The try block of the per-unit loop (src lines 210-223): copy and paste,
apply the preference when one is mapped, save, close.  An error carries the
counter value at the moment the exception is raised. -/
def unitTry (b : UnitBehavior) (n : Nat) (p : Bool) :
    Except (PyExn × Nat) (Artifact × Nat) :=
  match pasteStep b with
  | .error e => .error (e, n)
  | .ok _ =>
    match (if p then applyPreferencesStep b else Except.ok ()) with
    | .error e => .error (e, n)
    | .ok _ =>
      match saveAsEpsStep b n with
      | .error en => .error en
      | .ok r =>
        match closeStep b with
        | .ok _ => .ok r
        | .error e => .error (e, r.snd)

/-- The observable outcome of a (partial) run: artifacts written in order,
the counter value, and how many times dismiss_error_popup was invoked. -/
structure RunState where
  artifacts : List Artifact
  counter : Nat
  dismissCalls : Nat
deriving DecidableEq

/-- One iteration of the per-unit loop: on an exception the handler at src
lines 225-241 runs dismiss_error_popup once, writes the empty placeholder
named from the current (post-raise) counter value, and increments the
counter once more. -/
def processOneUnit (pm : PrefMap) (b : UnitBehavior) (n : Nat) : RunState :=
  match unitTry b n (prefAvailable pm n) with
  | .ok (a, n') => ⟨[a], n', 0⟩
  | .error (_, m) => ⟨[⟨m, true⟩], m + 1, 1⟩

/-- The whole per-unit loop over the nonempty lines of the intermediate
file, one UnitBehavior per unit, threading the counter. -/
def processUnits (pm : PrefMap) : List UnitBehavior → Nat → RunState
  | [], n => ⟨[], n, 0⟩
  | b :: bs, n =>
    let u := processOneUnit pm b n
    let rest := processUnits pm bs u.counter
    ⟨u.artifacts ++ rest.artifacts, rest.counter, u.dismissCalls + rest.dismissCalls⟩

/-- How a whole run aborts outside the per-unit loop: at src lines 198-199
the orchestrator calls set_focus on the result of get_main_window without a
none check, so a missing main window at startup raises an uncaught
AttributeError. -/
inductive RunAbort where
  | startupMainWindowNotFound
deriving DecidableEq

/-- process_mathml_blocks_from_file (src lines 194-245): acquire the
application, locate the main window (snaps are the startup poll snapshots),
then run the per-unit loop with the counter starting at its initial value 1
(src line 24). -/
def processMathmlBlocksFromFile (snaps : List (List AppWindow)) (pm : PrefMap)
    (bs : List UnitBehavior) : Except RunAbort RunState :=
  match getMainWindow snaps with
  | none => .error .startupMainWindowNotFound
  | some _ => .ok (processUnits pm bs 1)

/-! ### Entry point (src lines 249-273) -/

deriving instance DecidableEq for Except

inductive MainOutcome where
  | exited (code : Nat) (msg : String)
  | ran (result : Except RunAbort RunState)
deriving DecidableEq

/-- The environment the entry point runs in: presence of the pyperclip
library, existence of the input document and of the MathType executable, the
document text, the preference report content (none when missing), the
startup window snapshots, and the per-unit behaviour of the control channel
for the i-th processed unit. -/
structure MainEnv where
  pyperclipAvailable : Bool
  xmlFileExists : Bool
  mathTypeExists : Bool
  xmlText : List Char
  prefReport : Option (List (List Char))
  startSnaps : List (List AppWindow)
  behaviorAt : Nat → UnitBehavior

/-- The main block (src lines 249-273): the four fatal startup checks in
source order, each exiting with status 1 and a message; then the preference
map is read and the per-unit loop processes one unit per extracted block. -/
def mainRun (env : MainEnv) : MainOutcome :=
  match env.pyperclipAvailable with
  | false => .exited 1 "Please install pyperclip first"
  | true =>
    match env.xmlFileExists with
    | false => .exited 1 "XML file does not exist"
    | true =>
      match env.mathTypeExists with
      | false => .exited 1 "MathType not found at path"
      | true =>
        match extract_mathml_blocks env.xmlText with
        | [] => .exited 1 "No math blocks with altimg found in the XML"
        | _ :: _ =>
          .ran (processMathmlBlocksFromFile env.startSnaps
            (read_eps_preferences env.prefReport).fst
            ((List.range (extract_mathml_blocks env.xmlText).length).map env.behaviorAt))

/-- The artifacts a main outcome produced: none when the run exited at a
startup check or aborted before the per-unit loop. -/
def artifactsOfMain : MainOutcome → List Artifact
  | .exited _ _ => []
  | .ran (Except.error _) => []
  | .ran (Except.ok st) => st.artifacts

/-! ### Auxiliary notions used by the theorems -/

/-- The list start, start+1, ..., start+k-1. -/
def indexRange : Nat → Nat → List Nat
  | _, 0 => []
  | start, k + 1 => start :: indexRange (start + 1) k

/-- The behaviours that raise after the counter increment at src line 125. -/
def postIncFailure : UnitBehavior → Bool
  | .saveEditFail => true
  | .saveClickFail => true
  | _ => false

/-! ### Helper lemmas -/

/-- A line with fewer than two tab-delimited fields leaves the mapping
untouched. -/
theorem processLine_skip (m : PrefMap) (line : List Char)
    (h : hasTwoFields line = false) : processLine m line = m := by
  unfold hasTwoFields at h
  unfold processLine
  split
  · rename_i p0 p1 restf heq
    rw [heq] at h
    simp at h
  · rfl

/-- Folding the line processor over only the well-formed lines gives the
same mapping as folding it over all lines. -/
theorem foldl_processLine_filter (lines : List (List Char)) (m : PrefMap) :
    (lines.filter hasTwoFields).foldl processLine m = lines.foldl processLine m := by
  induction lines generalizing m with
  | nil => rfl
  | cons l ls ih =>
    by_cases h : hasTwoFields l = true
    · rw [List.filter_cons_of_pos h]
      simp only [List.foldl_cons]
      exact ih (processLine m l)
    · rw [List.filter_cons_of_neg h]
      simp only [List.foldl_cons]
      rw [processLine_skip m l (Bool.not_eq_true _ ▸ h)]
      exact ih m

/-- When the try block of a unit succeeds, the artifact is the real render
for the entry counter value and the counter advanced exactly once. -/
theorem unitTry_ok_shape (b : UnitBehavior) (n : Nat) (p : Bool) (a : Artifact)
    (n' : Nat) (h : unitTry b n p = .ok (a, n')) :
    a = ⟨n, false⟩ ∧ n' = n + 1 := by
  cases b <;> cases p <;>
    simp_all [unitTry, pasteStep, applyPreferencesStep, saveAsEpsStep, closeStep]

/-- getMainWindow returns none exactly when no polled snapshot contains a
window with MathType in the title and the EQNWINCLASS class. -/
theorem getMainWindow_none_iff (snaps : List (List AppWindow)) :
    getMainWindow snaps = none ↔ ∀ ws ∈ snaps, ∀ w ∈ ws, isMainWindow w = false := by
  induction snaps with
  | nil => simp [getMainWindow]
  | cons ws later ih =>
    cases hf : ws.find? isMainWindow with
    | none =>
      have hws : ∀ w ∈ ws, isMainWindow w = false := by
        intro w hw
        have := List.find?_eq_none.mp hf w hw
        simpa using this
      simp only [getMainWindow, findMain, hf]
      rw [ih]
      constructor
      · intro hlater ws0 hws0 w hw
        rcases List.mem_cons.mp hws0 with h0 | h0
        · subst h0
          exact hws w hw
        · exact hlater ws0 h0 w hw
      · intro hall ws0 hws0 w hw
        exact hall ws0 (List.mem_cons_of_mem _ hws0) w hw
    | some w =>
      have hw : isMainWindow w = true := List.find?_some hf
      have hmem : w ∈ ws := List.mem_of_find?_eq_some hf
      simp only [getMainWindow, findMain, hf]
      constructor
      · intro hcontr
        cases hcontr
      · intro hall
        have := hall ws (List.mem_cons_self _ _) w hmem
        rw [hw] at this
        cases this

/-! ### Claims -/

/-- C1: the spec claims the set of produced artifact indices is exactly
1..k no matter at which step a unit failure happens.  Evaluating the
orchestrator at the failing input refutes this: a single-unit run whose
save step raises after the save dialog became visible (set_edit_text at src
line 127, after the counter increment at src line 125) produces only the
placeholder with index 2 and no artifact with index 1. -/
theorem late_save_failure_artifact_index_gap :
    (processUnits [] [UnitBehavior.saveEditFail] 1).artifacts.map Artifact.index = [2]
  ∧ (processUnits [] [UnitBehavior.saveEditFail] 1).artifacts.map Artifact.index
      ≠ indexRange 1 1 := by
  constructor
  · rfl
  · decide

/-- C2: the spec claims the counter is incremented exactly once per unit
regardless of where the failure occurs.  Evaluating the orchestrator at the
failing input refutes this: a single-unit run failing in set_edit_text
(after the increment at src line 125) ends with the counter at 3, so the
counter was incremented twice for one unit. -/
theorem late_save_failure_double_increment :
    (processUnits [] [UnitBehavior.saveEditFail] 1).counter = 3
  ∧ (1 : Nat) + 1 ≠ 3 := by
  constructor
  · rfl
  · decide

/-- C3: a three-unit document whose second unit times out waiting for the
save dialog produces Eqn1.eps, Eqn2_failed.eps, Eqn3.eps in order, and the
counter finishes at 4. -/
theorem three_unit_save_timeout_scenario :
    (processUnits [] [UnitBehavior.ok, UnitBehavior.saveDialogTimeout, UnitBehavior.ok] 1).artifacts.map artifactName
      = ["Eqn1.eps".data, "Eqn2_failed.eps".data, "Eqn3.eps".data]
  ∧ (processUnits [] [UnitBehavior.ok, UnitBehavior.saveDialogTimeout, UnitBehavior.ok] 1).counter = 4 := by
  constructor
  · rfl
  · rfl

/-- C5: extraction is deterministic: on the same unchanged document text it
yields the same block list, hence the same number of units, the same order,
and identical markup text and altimg reference per unit. -/
theorem extract_deterministic (s t : List Char) (h : s = t) :
    extract_mathml_blocks s = extract_mathml_blocks t
  ∧ (extract_mathml_blocks s).length = (extract_mathml_blocks t).length
  ∧ (extract_mathml_blocks s).map Prod.fst = (extract_mathml_blocks t).map Prod.fst
  ∧ (extract_mathml_blocks s).map Prod.snd = (extract_mathml_blocks t).map Prod.snd := by
  subst h
  exact ⟨rfl, rfl, rfl, rfl⟩

def docTwoUnits : List Char :=
  "<math altimg=\"i1\">b1</math><math altimg=\"i2\">b2</math>".data

/-- Witness for C5 at a concrete two-unit document. -/
theorem extract_deterministic_witness :
    extract_mathml_blocks docTwoUnits = extract_mathml_blocks docTwoUnits
  ∧ (extract_mathml_blocks docTwoUnits).length = (extract_mathml_blocks docTwoUnits).length
  ∧ (extract_mathml_blocks docTwoUnits).map Prod.fst = (extract_mathml_blocks docTwoUnits).map Prod.fst
  ∧ (extract_mathml_blocks docTwoUnits).map Prod.snd = (extract_mathml_blocks docTwoUnits).map Prod.snd :=
  extract_deterministic docTwoUnits docTwoUnits rfl

/-- C6: the preference-map loader returns the empty mapping plus the
non-fatal warning on a missing or unreadable report, skips every line with
fewer than two tab-delimited fields without affecting the entries built
from the other lines, and logs no missing-file warning when the file is
present.  The loader is a total function, so no line can make it raise. -/
theorem read_eps_preferences_skips_short_lines (lines : List (List Char)) :
    read_eps_preferences none = ([], true)
  ∧ (read_eps_preferences (some lines)).fst
      = (read_eps_preferences (some (lines.filter hasTwoFields))).fst
  ∧ (read_eps_preferences (some lines)).snd = false := by
  refine ⟨rfl, ?_, rfl⟩
  simp only [read_eps_preferences]
  exact (foldl_processLine_filter lines []).symm

/-- C9: dismiss_error_popup returns true exactly when some enumerated
window both has a keyword-matching title (case-insensitive) and its
focus-then-escape attempt succeeds; it returns false when no title matches
or every dismissal attempt fails. -/
theorem dismiss_error_popup_contract (ws : List PopupWindow) :
    dismiss_error_popup ws
      = ws.any (fun w => titleMatchesKeyword w.title && w.dismissSucceeds)
  ∧ (dismiss_error_popup ws = true
      ↔ ∃ w ∈ ws, titleMatchesKeyword w.title = true ∧ w.dismissSucceeds = true) := by
  have key : dismiss_error_popup ws
      = ws.any (fun w => titleMatchesKeyword w.title && w.dismissSucceeds) := by
    induction ws with
    | nil => rfl
    | cons w rest ih =>
      simp only [dismiss_error_popup, List.any_cons]
      cases h1 : titleMatchesKeyword w.title <;>
        cases h2 : w.dismissSucceeds <;> simp [h1, h2, ih]
  refine ⟨key, ?_⟩
  rw [key, List.any_eq_true]
  constructor
  · rintro ⟨w, hw, hprop⟩
    exact ⟨w, hw, by simpa using hprop⟩
  · rintro ⟨w, hw, h1, h2⟩
    exact ⟨w, hw, by simp [h1, h2]⟩

/-- C4 counterexample: the spec claims any exception raised while advancing
through paste, apply preference, save or close leads to one popup-dismissal
invocation and a placeholder.  An exception raised during close
(close_current_window, src lines 142-151) is swallowed inside that function:
the unit completes with the real artifact already saved, dismiss_error_popup
is never invoked, and no placeholder is written. -/
theorem close_exception_no_placeholder :
    (processOneUnit [] UnitBehavior.closeFail 1).dismissCalls = 0
  ∧ (processOneUnit [] UnitBehavior.closeFail 1).artifacts = [⟨1, false⟩]
  ∧ (processOneUnit [] UnitBehavior.closeFail 1).dismissCalls ≠ 1 := by
  refine ⟨rfl, rfl, ?_⟩
  decide

/-- C4 amended: an exception that escapes a step of the per-unit happy path
is caught at the unit boundary: popup dismissal runs exactly once, a
placeholder is written for the counter value current at the moment of the
raise, the counter is advanced once more, and the loop continues with the
next unit with no retry; when the try block completes (including the cases
where a preference-menu or close failure was swallowed inside its own step)
the unit yields the real artifact with no dismissal.  No exception
propagates past the per-unit boundary in either case. -/
theorem unit_boundary_isolation (pm : PrefMap) (b : UnitBehavior)
    (bs : List UnitBehavior) (n : Nat) :
    (processUnits pm (b :: bs) n).artifacts
        = (processOneUnit pm b n).artifacts
          ++ (processUnits pm bs (processOneUnit pm b n).counter).artifacts
  ∧ (processUnits pm (b :: bs) n).counter
        = (processUnits pm bs (processOneUnit pm b n).counter).counter
  ∧ (processUnits pm (b :: bs) n).dismissCalls
        = (processOneUnit pm b n).dismissCalls
          + (processUnits pm bs (processOneUnit pm b n).counter).dismissCalls
  ∧ (match unitTry b n (prefAvailable pm n) with
     | .error em => processOneUnit pm b n = ⟨[⟨em.snd, true⟩], em.snd + 1, 1⟩
     | .ok an => processOneUnit pm b n = ⟨[an.fst], an.snd, 0⟩
                  ∧ an.fst.failed = false) := by
  refine ⟨rfl, rfl, rfl, ?_⟩
  cases h : unitTry b n (prefAvailable pm n) with
  | error em =>
    obtain ⟨e, m⟩ := em
    simp [processOneUnit, h]
  | ok an =>
    obtain ⟨a, n'⟩ := an
    have hshape := unitTry_ok_shape b n (prefAvailable pm n) a n' h
    simp only [processOneUnit, h]
    refine ⟨by trivial, ?_⟩
    rw [hshape.1]

/-- C7 counterexample: the spec claims a main-window-not-found condition is
always per-unit recoverable and never aborts the whole run.  When the
startup poll at src line 198 times out, getMainWindow returns none and the
unchecked set_focus at src line 199 raises an uncaught AttributeError: the
run aborts before any unit is processed and no artifact at all is written. -/
theorem startup_window_timeout_aborts_run :
    getMainWindow [[]] = none
  ∧ processMathmlBlocksFromFile [[]] [] [UnitBehavior.ok]
      = Except.error RunAbort.startupMainWindowNotFound
  ∧ artifactsOfMain (MainOutcome.ran (processMathmlBlocksFromFile [[]] [] [UnitBehavior.ok])) = [] := by
  refine ⟨rfl, rfl, rfl⟩

/-- C7 amended: get_main_window returns none on timeout rather than raising
(none exactly when no polled snapshot contains a MathType main window); a
main window not found during the save step is caught at the unit boundary
and resolves to a placeholder for that unit plus continuation; but a main
window not found at orchestration startup aborts the whole run via the
unchecked set_focus at src line 199. -/
theorem main_window_not_found_handling :
    (∀ snaps, getMainWindow snaps = none
        ↔ ∀ ws ∈ snaps, ∀ w ∈ ws, isMainWindow w = false)
  ∧ (∀ pm n, processOneUnit pm UnitBehavior.saveWinNotFound n = ⟨[⟨n, true⟩], n + 1, 1⟩)
  ∧ (∀ snaps pm bs, getMainWindow snaps = none →
      processMathmlBlocksFromFile snaps pm bs
        = Except.error RunAbort.startupMainWindowNotFound) := by
  refine ⟨getMainWindow_none_iff, ?_, ?_⟩
  · intro pm n
    cases hp : prefAvailable pm n <;>
      simp [processOneUnit, unitTry, pasteStep, applyPreferencesStep,
        saveAsEpsStep, hp]
  · intro snaps pm bs h
    simp [processMathmlBlocksFromFile, h]

/-- Witness for C7 amended: a startup snapshot holding only a non-MathType
window leads to the whole-run abort. -/
theorem main_window_not_found_handling_witness :
    processMathmlBlocksFromFile [[⟨"Spelling dialog".data, "DLGCLASS".data⟩]] [] []
      = Except.error RunAbort.startupMainWindowNotFound :=
  main_window_not_found_handling.2.2
    [[⟨"Spelling dialog".data, "DLGCLASS".data⟩]] [] [] (by decide)

/-- C8: violation of any startup precondition (missing pyperclip, missing
input document, missing MathType executable, or zero extracted units) makes
the entry point exit with status 1 and a nonempty message before the
per-unit loop, and no artifact is produced. -/
theorem startup_preconditions_fatal (env : MainEnv)
    (h : env.pyperclipAvailable = false ∨ env.xmlFileExists = false
       ∨ env.mathTypeExists = false ∨ extract_mathml_blocks env.xmlText = []) :
    (∃ msg, mainRun env = MainOutcome.exited 1 msg ∧ msg ≠ "")
  ∧ artifactsOfMain (mainRun env) = [] := by
  have key : ∃ msg, mainRun env = MainOutcome.exited 1 msg ∧ msg ≠ "" := by
    cases hp : env.pyperclipAvailable with
    | false =>
      exact ⟨"Please install pyperclip first", by simp [mainRun, hp], by decide⟩
    | true =>
      cases hx : env.xmlFileExists with
      | false =>
        exact ⟨"XML file does not exist", by simp [mainRun, hp, hx], by decide⟩
      | true =>
        cases hm : env.mathTypeExists with
        | false =>
          exact ⟨"MathType not found at path", by simp [mainRun, hp, hx, hm], by decide⟩
        | true =>
          cases hb : extract_mathml_blocks env.xmlText with
          | nil =>
            exact ⟨"No math blocks with altimg found in the XML",
              by simp [mainRun, hp, hx, hm, hb], by decide⟩
          | cons blk blks =>
            rcases h with h | h | h | h <;> simp_all
  rcases key with ⟨msg, hmsg, hne⟩
  refine ⟨⟨msg, hmsg, hne⟩, ?_⟩
  rw [hmsg]
  rfl

def envMissingXml : MainEnv :=
  ⟨true, false, true, [], none, [], fun _ => UnitBehavior.ok⟩

/-- Witness for C8: an environment whose input document is missing. -/
theorem startup_preconditions_fatal_witness :
    (∃ msg, mainRun envMissingXml = MainOutcome.exited 1 msg ∧ msg ≠ "")
  ∧ artifactsOfMain (mainRun envMissingXml) = [] :=
  startup_preconditions_fatal envMissingXml (Or.inr (Or.inl rfl))

/-! ### Shape of extracted altimg groups -/

/-- A successful tail match yields a nonempty altimg value containing no
quote character (the regex group is one-or-more non-quote characters). -/
theorem matchFromAlt_shape (s alt body rest : List Char)
    (h : matchFromAlt s = some (alt, body, rest)) :
    alt ≠ [] ∧ ∀ c ∈ alt, c ≠ '"' := by
  unfold matchFromAlt at h
  by_cases he : (s.takeWhile (fun c => c != '"')).isEmpty
  · simp [he] at h
  · rw [if_neg he] at h
    split at h
    · split at h
      · split at h
        · rename_i body0 rest0 hsplit
          injection h with h1
          injection h1 with ha h2
          subst ha
          constructor
          · intro hempty
            rw [hempty] at he
            exact he rfl
          · intro c hc
            have := List.mem_takeWhile_imp hc
            simpa using this
        · cases h
      · cases h
    · cases h

/-- The backtracking search only returns results of a tail match. -/
theorem tryAltFrom_shape (t : List Char) (k : Nat) (alt body rest : List Char)
    (h : tryAltFrom t k = some (alt, body, rest)) :
    alt ≠ [] ∧ ∀ c ∈ alt, c ≠ '"' := by
  induction k with
  | zero =>
    unfold tryAltFrom at h
    split at h
    · exact matchFromAlt_shape _ _ _ _ h
    · cases h
  | succ k ih =>
    unfold tryAltFrom at h
    split at h
    · rename_i r heq
      split at heq
      · rw [h] at heq
        exact matchFromAlt_shape _ _ _ _ heq
      · cases heq
    · exact ih h

/-- A whole-pattern match at a position yields a nonempty, quote-free
altimg value. -/
theorem matchMathAt_shape (s alt body rest : List Char)
    (h : matchMathAt s = some (alt, body, rest)) :
    alt ≠ [] ∧ ∀ c ∈ alt, c ≠ '"' := by
  unfold matchMathAt at h
  split at h
  · exact tryAltFrom_shape _ _ _ _ _ h
  · cases h

/-- Every group pair produced by the findall scan has a nonempty,
quote-free altimg value. -/
theorem findAllFuel_alt_shape (fuel : Nat) (s alt body : List Char)
    (h : (alt, body) ∈ findAllFuel fuel s) :
    alt ≠ [] ∧ ∀ c ∈ alt, c ≠ '"' := by
  induction fuel generalizing s with
  | zero => simp [findAllFuel] at h
  | succ fuel ih =>
    cases s with
    | nil => simp [findAllFuel] at h
    | cons c rest =>
      unfold findAllFuel at h
      split at h
      · rename_i alt0 body0 rem heq
        rcases List.mem_cons.mp h with h0 | h0
        · injection h0 with ha hb
          subst ha
          exact matchMathAt_shape _ _ _ _ heq
        · exact ih rem h0
      · exact ih rest h

/-- C10 counterexample: the spec claims the extractor never returns the
original matched span verbatim.  On this document the single matched span
is the entire text, whose opening tag already carries only the altimg
attribute, and the extractor returns exactly that span. -/
def docMinimalTag : List Char := "<math altimg=\"a\">b</math>".data

theorem extract_returns_span_verbatim :
    extract_mathml_blocks docMinimalTag = [(docMinimalTag, "a".data)] := by
  decide

/-- C10 amended: every unit returned by the extractor is the rebuilt string
consisting of the open tag with only the altimg attribute, the captured
altimg reference, the captured body and the close tag, paired with that
altimg reference; the reference is nonempty and quote-free.  The rebuilt
text coincides with the original span exactly when the original opening tag
was already in this minimal form. -/
theorem extract_rebuilds_each_unit (doc : List Char) (u : List Char × List Char)
    (hu : u ∈ extract_mathml_blocks doc) :
    ∃ alt body, u = (rebuildBlock alt body, alt)
      ∧ alt ≠ [] ∧ ∀ c ∈ alt, c ≠ '"' := by
  unfold extract_mathml_blocks at hu
  rcases List.mem_map.mp hu with ⟨m, hm, hu'⟩
  obtain ⟨alt, body⟩ := m
  have hshape := findAllFuel_alt_shape doc.length doc alt body hm
  exact ⟨alt, body, hu'.symm, hshape.1, hshape.2⟩

def docExtraAttrs : List Char :=
  "<math display=\"block\" altimg=\"r\">x</math>".data

/-- Witness for C10 amended at a document whose opening tag carries an
extra attribute. -/
theorem extract_rebuilds_each_unit_witness :
    ∃ alt body,
      ((rebuildBlock "r".data "x".data, "r".data) : List Char × List Char)
        = (rebuildBlock alt body, alt)
      ∧ alt ≠ [] ∧ ∀ c ∈ alt, c ≠ '"' :=
  extract_rebuilds_each_unit docExtraAttrs
    (rebuildBlock "r".data "x".data, "r".data) (by decide)

end MathMLEps
